import Mathlib

set_option maxRecDepth 40000

/-!
Shallow embedding of the poll server actions of alx-polly
(file src/app/lib/actions/poll-actions.ts) and proofs about the claims of
the specification.

Modelling conventions:
* Strings are Lean strings; the JS length of the ASCII strings appearing in
  all rules and tests coincides with the Lean codepoint length.
* JS String.prototype.trim removes the JS whitespace set from both ends;
  we model that set on codepoints (jsWhitespaceChar).
* String.prototype.replace with the global character class [<>] removes
  every occurrence of the two characters; we model it as a filter.
* A JS number passed as the option index is modelled as a rational: the
  code only compares it (no arithmetic), and every comparison performed on
  the concrete values used below is exact in binary floating point, so the
  rational model agrees with the JS semantics at those inputs.  The check
  corresponding to typeof optionIndex being number holds for every
  rational and is therefore omitted.
* The supabase store is a pair of lists of rows.  The query builder calls
  map to list operations: delete().eq(a).eq(b) filters rows out,
  update().eq(a).eq(b) maps matching rows, insert appends, and single()
  yields data exactly when the filtered row set has exactly one element
  (otherwise supabase reports an error and data is null).
* The store itself is modelled as never failing: the spec conditions its
  statements on the store not surfacing a distinct error.
* auth.getUser() returns a pair of an optional user and an optional error
  message (AuthResult); the code reads the two fields independently.
* formData.get of an absent key returns null in JS; calling sanitizeInput
  on null throws a TypeError from null.trim().  The two operations that
  read form data therefore return an Except, whose error case models the
  thrown exception escaping the operation.
* revalidatePath is a signal to the presentation layer with no effect on
  the store; it is not modelled.
-/

/-- The JS whitespace set used by String.prototype.trim, on codepoints. -/
def jsWhitespaceChar (c : Char) : Bool :=
  decide (c.toNat = 0x09 ∨ c.toNat = 0x0a ∨ c.toNat = 0x0b ∨ c.toNat = 0x0c ∨
    c.toNat = 0x0d ∨ c.toNat = 0x20 ∨ c.toNat = 0xa0 ∨ c.toNat = 0x1680 ∨
    (0x2000 ≤ c.toNat ∧ c.toNat ≤ 0x200a) ∨ c.toNat = 0x2028 ∨
    c.toNat = 0x2029 ∨ c.toNat = 0x202f ∨ c.toNat = 0x205f ∨
    c.toNat = 0x3000 ∨ c.toNat = 0xfEFF)

/-- input.trim() on the character list of a string. -/
def jsTrim (l : List Char) : List Char :=
  ((l.dropWhile jsWhitespaceChar).reverse.dropWhile jsWhitespaceChar).reverse

/-- sanitizeInput: input.trim().replace removing every < and >. -/
def sanitizeInput (input : String) : String :=
  String.mk ((jsTrim input.data).filter (fun c => !(c == '<' || c == '>')))

deriving instance DecidableEq for Except

/-- Result shape of validatePollInput. -/
structure ValidationResult where
  isValid : Bool
  error : Option String
deriving DecidableEq, Repr

/-- The for loop over options inside validatePollInput: for each option in
order, the emptiness check runs before the length check, and the loop
returns on the first failure. -/
def checkOptions : List String → Option String
  | [] => none
  | option :: rest =>
    if option = "" ∨ option.length < 1 then some "All options must have content."
    else if option.length > 200 then some "Each option must be less than 200 characters."
    else checkOptions rest

/-- validatePollInput from the source: question checks, count checks, then
the per-option loop. -/
def validatePollInput (question : String) (options : List String) : ValidationResult :=
  if question = "" ∨ question.length < 3 then
    ⟨false, some "Question must be at least 3 characters long."⟩
  else if question.length > 500 then
    ⟨false, some "Question must be less than 500 characters."⟩
  else if options.length < 2 then
    ⟨false, some "At least 2 options are required."⟩
  else if options.length > 10 then
    ⟨false, some "Maximum 10 options allowed."⟩
  else
    match checkOptions options with
    | some e => ⟨false, some e⟩
    | none => ⟨true, none⟩

/-- Hexadecimal digit, both cases, as in the regex classes [0-9a-f] with
the i flag. -/
def isHexChar (c : Char) : Bool :=
  decide (('0' ≤ c ∧ c ≤ '9') ∨ ('a' ≤ c ∧ c ≤ 'f') ∨ ('A' ≤ c ∧ c ≤ 'F'))

/-- The UUID v4 shape regex of the source, anchored at both ends:
8 hex, dash, 4 hex, dash, a digit 1-5 then 3 hex, dash, one of 89ab
(either case) then 3 hex, dash, 12 hex. -/
def isUuid (s : String) : Bool :=
  match s.data with
  | a0 :: a1 :: a2 :: a3 :: a4 :: a5 :: a6 :: a7 :: g0 ::
    b0 :: b1 :: b2 :: b3 :: g1 ::
    c0 :: c1 :: c2 :: c3 :: g2 ::
    d0 :: d1 :: d2 :: d3 :: g3 ::
    e0 :: e1 :: e2 :: e3 :: e4 :: e5 :: e6 :: e7 :: e8 :: e9 :: ea :: eb :: [] =>
    g0 == '-' && g1 == '-' && g2 == '-' && g3 == '-' &&
    ([a0, a1, a2, a3, a4, a5, a6, a7, b0, b1, b2, b3,
      c1, c2, c3, d1, d2, d3,
      e0, e1, e2, e3, e4, e5, e6, e7, e8, e9, ea, eb].all isHexChar) &&
    decide ('1' ≤ c0 ∧ c0 ≤ '5') &&
    (d0 == '8' || d0 == '9' || d0 == 'a' || d0 == 'b' || d0 == 'A' || d0 == 'B')
  | _ => false

/-- A row of the polls table. -/
structure PollRow where
  id : String
  user_id : String
  question : String
  options : List String
  created_at : Nat
deriving DecidableEq, Repr

/-- A row of the votes table. -/
structure VoteRow where
  poll_id : String
  user_id : Option String
  option_index : ℚ
deriving DecidableEq, Repr

/-- The data store: the two tables the actions touch. -/
structure Db where
  polls : List PollRow
  votes : List VoteRow
deriving DecidableEq, Repr

/-- The user object of auth.getUser, reduced to the only field read. -/
structure AuthUser where
  id : String
deriving DecidableEq, Repr

/-- The shape returned by supabase.auth.getUser: data.user and error. -/
structure AuthResult where
  user : Option AuthUser
  error : Option String
deriving DecidableEq, Repr

/-- The form data read by createPoll and updatePoll: formData.get gives an
optional entry, formData.getAll gives the list of entries. -/
structure FormDataModel where
  question : Option String
  options : List String
deriving DecidableEq, Repr

/-- Result shape of the mutating actions. -/
structure ActionResult where
  error : Option String
deriving DecidableEq, Repr

/-- supabase .single(): data exactly when the filtered row set has exactly
one row; with zero or several rows supabase yields an error and null data. -/
def singleRow {α : Type} : List α → Option α
  | [a] => some a
  | _ => none

/-- The options pipeline shared by createPoll and updatePoll:
formData.getAll, then filter(Boolean) dropping empty strings, then
sanitizeInput on each survivor. -/
def processOptions (raw : List String) : List String :=
  (raw.filter (fun o => !(o == ""))).map sanitizeInput

/-- The TypeError thrown by null.trim() when the question key is absent. -/
def nullTrimError : String := "TypeError: null has no method trim"

/-- createPoll.  freshId and now stand for the row id and timestamp the
store generates on insert. -/
def createPoll (db : Db) (auth : AuthResult) (form : FormDataModel)
    (freshId : String) (now : Nat) : Except String (Db × ActionResult) :=
  match form.question with
  | none => .error nullTrimError
  | some rawQ =>
    let question := sanitizeInput rawQ
    let options := processOptions form.options
    let validation := validatePollInput question options
    if validation.isValid then
      match auth.error with
      | some e => .ok (db, ⟨some e⟩)
      | none =>
        match auth.user with
        | none => .ok (db, ⟨some "You must be logged in to create a poll."⟩)
        | some u =>
          .ok (⟨db.polls ++ [⟨freshId, u.id, question, options, now⟩], db.votes⟩, ⟨none⟩)
    else .ok (db, ⟨validation.error⟩)

/-- Insertion step of the descending order on created_at used by
getUserPolls (order by created_at, ascending false). -/
def insertByCreatedDesc (r : PollRow) : List PollRow → List PollRow
  | [] => [r]
  | x :: xs =>
    if x.created_at < r.created_at then r :: x :: xs else x :: insertByCreatedDesc r xs

/-- Sort rows newest first. -/
def sortByCreatedDesc : List PollRow → List PollRow
  | [] => []
  | x :: xs => insertByCreatedDesc x (sortByCreatedDesc xs)

/-- getUserPolls: requires a user, then selects the rows owned by the
caller, newest first. -/
def getUserPolls (db : Db) (auth : AuthResult) : List PollRow × Option String :=
  match auth.user with
  | none => ([], some "Not authenticated")
  | some u => (sortByCreatedDesc (db.polls.filter (fun r => r.user_id == u.id)), none)

/-- Result of getPollById; the queried flag instruments whether the store
select was issued. -/
structure GetPollByIdResult where
  poll : Option PollRow
  error : Option String
  queried : Bool
deriving DecidableEq, Repr

/-- Error text supabase attaches to single() when not exactly one row
matches. -/
def singleRowError : String := "JSON object requested, multiple (or no) rows returned"

/-- getPollById: UUID shape gate, then a single-row select on id. -/
def getPollById (db : Db) (id : String) : GetPollByIdResult :=
  if isUuid id then
    match singleRow (db.polls.filter (fun r => r.id == id)) with
    | some p => ⟨some p, none, true⟩
    | none => ⟨none, some singleRowError, true⟩
  else ⟨none, some "Invalid poll ID format", false⟩

/-- submitVote: UUID gate, numeric bounds gate, poll fetch, per-poll range
check, duplicate check for an authenticated caller, insert. -/
def submitVote (db : Db) (auth : AuthResult) (pollId : String)
    (optionIndex : ℚ) : Db × ActionResult :=
  if isUuid pollId then
    if optionIndex < 0 ∨ optionIndex > 9 then (db, ⟨some "Invalid option index"⟩)
    else
      match singleRow (db.polls.filter (fun r => r.id == pollId)) with
      | none => (db, ⟨some "Poll not found"⟩)
      | some poll =>
        if (poll.options.length : ℚ) ≤ optionIndex then
          (db, ⟨some "Invalid option index for this poll"⟩)
        else
          let existingVote : Option VoteRow :=
            match auth.user with
            | some u =>
              singleRow (db.votes.filter
                (fun v => v.poll_id == pollId && v.user_id == some u.id))
            | none => none
          match existingVote with
          | some _ => (db, ⟨some "You have already voted on this poll"⟩)
          | none =>
            (⟨db.polls,
              db.votes ++ [⟨pollId, (auth.user).map (fun u => u.id), optionIndex⟩]⟩,
             ⟨none⟩)
  else (db, ⟨some "Invalid poll ID format"⟩)

/-- deletePoll: auth error gate, login gate, then a delete scoped by both
the poll id and the caller id. -/
def deletePoll (db : Db) (auth : AuthResult) (id : String) : Db × ActionResult :=
  match auth.error with
  | some _ => (db, ⟨some "Authentication error"⟩)
  | none =>
    match auth.user with
    | none => (db, ⟨some "You must be logged in to delete a poll."⟩)
    | some u =>
      (⟨db.polls.filter (fun r => !(r.id == id && r.user_id == u.id)), db.votes⟩,
       ⟨none⟩)

/-- updatePoll: sanitize and validate the form, auth gates, then an update
scoped by both the poll id and the caller id. -/
def updatePoll (db : Db) (auth : AuthResult) (pollId : String)
    (form : FormDataModel) : Except String (Db × ActionResult) :=
  match form.question with
  | none => .error nullTrimError
  | some rawQ =>
    let question := sanitizeInput rawQ
    let options := processOptions form.options
    let validation := validatePollInput question options
    if validation.isValid then
      match auth.error with
      | some e => .ok (db, ⟨some e⟩)
      | none =>
        match auth.user with
        | none => .ok (db, ⟨some "You must be logged in to update a poll."⟩)
        | some u =>
          .ok (⟨db.polls.map (fun r =>
                  if r.id == pollId && r.user_id == u.id then
                    { r with question := question, options := options }
                  else r),
                db.votes⟩, ⟨none⟩)
    else .ok (db, ⟨validation.error⟩)

/-- A well-formed poll id (matches the UUID shape). -/
def pid1 : String := "123e4567-e89b-42d3-a456-426614174000"

/-- A poll with exactly three options, owned by owner1. -/
def pollA : PollRow := ⟨pid1, "owner1", "Favorite color?", ["Red", "Blue", "Green"], 1⟩

/-- Store holding pollA and no votes. -/
def cDb : Db := ⟨[pollA], []⟩

/-- Store holding pollA and exactly one vote on it by u1. -/
def db1 : Db := ⟨[pollA], [⟨pid1, some "u1", 0⟩]⟩

/-- Store holding pollA and two votes on it by u1 (reachable through the
race between the duplicate check and the insert described by the spec). -/
def db3 : Db := ⟨[pollA], [⟨pid1, some "u1", 0⟩, ⟨pid1, some "u1", 1⟩]⟩

/-- An option text of 201 characters. -/
def longOpt : String := String.mk (List.replicate 201 'a')

/-- A question of 501 characters whose sanitized form has 500. -/
def qLong : String := String.mk (List.replicate 500 'a' ++ ['<'])

/-- A string of length below one is the empty string. -/
theorem length_lt_one_eq_empty (s : String) (h : s.length < 1) : s = "" := by
  cases s with
  | mk data =>
    cases data with
    | nil => rfl
    | cons c cs =>
      exfalso
      have hl : (String.mk (c :: cs)).length = cs.length + 1 := rfl
      omega

/-- A filter whose predicate holds on every element of the list keeps the
list intact. -/
theorem filter_all_eq_self {α : Type} (p : α → Bool) (l : List α)
    (h : ∀ a ∈ l, p a = true) : l.filter p = l := by
  induction l with
  | nil => rfl
  | cons x xs ih =>
    rw [List.filter_cons_of_pos (h x (List.mem_cons_self x xs)),
      ih (fun a ha => h a (List.mem_cons_of_mem x ha))]

/-- A map whose function fixes every element of the list keeps the list
intact. -/
theorem map_fixes_eq_self {α : Type} (f : α → α) (l : List α)
    (h : ∀ a ∈ l, f a = a) : l.map f = l := by
  induction l with
  | nil => rfl
  | cons x xs ih =>
    rw [List.map_cons, h x (List.mem_cons_self x xs),
      ih (fun a ha => h a (List.mem_cons_of_mem x ha))]

/-- First validator rule: a question below three characters is reported as
too short, whatever the options are. -/
theorem validate_q_short (question : String) (options : List String)
    (h : question.length < 3) :
    validatePollInput question options =
      ⟨false, some "Question must be at least 3 characters long."⟩ := by
  unfold validatePollInput
  rw [if_pos (Or.inr h)]

/-- Second validator rule: a question over five hundred characters is
reported as too long, whatever the options are. -/
theorem validate_q_long (question : String) (options : List String)
    (h3 : 3 ≤ question.length) (h5 : 500 < question.length) :
    validatePollInput question options =
      ⟨false, some "Question must be less than 500 characters."⟩ := by
  have hne : ¬(question = "" ∨ question.length < 3) := by
    rintro (rfl | hlt)
    · exact absurd h3 (by decide)
    · omega
  unfold validatePollInput
  rw [if_neg hne, if_pos h5]

/-- Third validator rule: with a well-sized question, fewer than two
options are reported as too few. -/
theorem validate_count_low (question : String) (options : List String)
    (h3 : 3 ≤ question.length) (h5 : question.length ≤ 500)
    (hlt : options.length < 2) :
    validatePollInput question options =
      ⟨false, some "At least 2 options are required."⟩ := by
  have hne : ¬(question = "" ∨ question.length < 3) := by
    rintro (rfl | hlt2)
    · exact absurd h3 (by decide)
    · omega
  unfold validatePollInput
  rw [if_neg hne, if_neg (by omega), if_pos hlt]

/-- Fourth validator rule: with a well-sized question, more than ten
options are reported as too many. -/
theorem validate_count_high (question : String) (options : List String)
    (h3 : 3 ≤ question.length) (h5 : question.length ≤ 500)
    (hgt : 10 < options.length) :
    validatePollInput question options =
      ⟨false, some "Maximum 10 options allowed."⟩ := by
  have hne : ¬(question = "" ∨ question.length < 3) := by
    rintro (rfl | hlt2)
    · exact absurd h3 (by decide)
    · omega
  unfold validatePollInput
  rw [if_neg hne, if_neg (by omega), if_neg (by omega), if_pos hgt]

/-- With the question and count rules passing, the validator answers what
the option loop answers. -/
theorem validate_options_loop (question : String) (options : List String)
    (h3 : 3 ≤ question.length) (h5 : question.length ≤ 500)
    (h2 : 2 ≤ options.length) (h10 : options.length ≤ 10) :
    validatePollInput question options =
      match checkOptions options with
      | some e => ⟨false, some e⟩
      | none => ⟨true, none⟩ := by
  have hne : ¬(question = "" ∨ question.length < 3) := by
    rintro (rfl | hlt2)
    · exact absurd h3 (by decide)
    · omega
  unfold validatePollInput
  rw [if_neg hne, if_neg (by omega), if_neg (by omega), if_neg (by omega)]

/-- Unfolding equation of the option loop on a non-empty list. -/
theorem checkOptions_cons (o : String) (rest : List String) :
    checkOptions (o :: rest) =
      if o = "" ∨ o.length < 1 then some "All options must have content."
      else if o.length > 200 then some "Each option must be less than 200 characters."
      else checkOptions rest := rfl

/-- The option loop skips a prefix of options that pass both checks. -/
theorem checkOptions_append (pre tail : List String)
    (h : ∀ p ∈ pre, p ≠ "" ∧ p.length ≤ 200) :
    checkOptions (pre ++ tail) = checkOptions tail := by
  induction pre with
  | nil => rfl
  | cons o rest ih =>
    obtain ⟨h1, h2⟩ := h o (List.mem_cons_self o rest)
    have hc1 : ¬(o = "" ∨ o.length < 1) := by
      rintro (rfl | hlt)
      · exact h1 rfl
      · exact h1 (length_lt_one_eq_empty o hlt)
    rw [List.cons_append, checkOptions_cons, if_neg hc1, if_neg (by omega)]
    exact ih (fun p hp => h p (List.mem_cons_of_mem o hp))

/-- An empty option at the head of the loop reports the content rule. -/
theorem checkOptions_cons_empty (rest : List String) :
    checkOptions ("" :: rest) = some "All options must have content." := by
  unfold checkOptions
  rw [if_pos (Or.inl rfl)]

/-- A non-empty over-long option at the head of the loop reports the
length rule. -/
theorem checkOptions_cons_long (o : String) (rest : List String)
    (h1 : o ≠ "") (h2 : 200 < o.length) :
    checkOptions (o :: rest) = some "Each option must be less than 200 characters." := by
  have hc1 : ¬(o = "" ∨ o.length < 1) := by
    rintro (rfl | hlt)
    · exact h1 rfl
    · exact h1 (length_lt_one_eq_empty o hlt)
  unfold checkOptions
  rw [if_neg hc1, if_pos h2]

/-- The option loop reports the content rule only when an empty string is
among the options. -/
theorem checkOptions_content_mem (opts : List String)
    (h : checkOptions opts = some "All options must have content.") :
    "" ∈ opts := by
  induction opts with
  | nil => exact absurd h (by decide)
  | cons o rest ih =>
    by_cases hc : o = "" ∨ o.length < 1
    · rcases hc with rfl | hlt
      · exact List.mem_cons_self _ _
      · rw [length_lt_one_eq_empty o hlt]
        exact List.mem_cons_self _ _
    · unfold checkOptions at h
      rw [if_neg hc] at h
      by_cases hl : o.length > 200
      · rw [if_pos hl] at h
        exact absurd h (by decide)
      · rw [if_neg hl] at h
        exact List.mem_cons_of_mem _ (ih h)

/-- Dropping a prefix never lengthens a list. -/
theorem dropWhile_length_le {α : Type} (p : α → Bool) (l : List α) :
    (l.dropWhile p).length ≤ l.length := by
  induction l with
  | nil => exact Nat.le_refl _
  | cons x xs ih =>
    rw [List.dropWhile_cons]
    by_cases h : p x = true
    · rw [if_pos h]
      exact le_trans ih (by simp)
    · rw [if_neg h]

/-- Trimming never lengthens a character list. -/
theorem jsTrim_length_le (l : List Char) : (jsTrim l).length ≤ l.length := by
  unfold jsTrim
  calc ((l.dropWhile jsWhitespaceChar).reverse.dropWhile jsWhitespaceChar).reverse.length
      = ((l.dropWhile jsWhitespaceChar).reverse.dropWhile jsWhitespaceChar).length :=
        List.length_reverse _
    _ ≤ (l.dropWhile jsWhitespaceChar).reverse.length := dropWhile_length_le _ _
    _ = (l.dropWhile jsWhitespaceChar).length := List.length_reverse _
    _ ≤ l.length := dropWhile_length_le _ _

/-- Sanitization never lengthens a string: it only removes characters. -/
theorem sanitizeInput_length_le (s : String) : (sanitizeInput s).length ≤ s.length := by
  have h1 : (sanitizeInput s).length =
      ((jsTrim s.data).filter (fun c => !(c == '<' || c == '>'))).length := rfl
  have h2 : s.length = s.data.length := rfl
  rw [h1, h2]
  exact le_trans (List.length_filter_le _ _) (jsTrim_length_le s.data)

/-- C1: an authenticated caller who does not own poll p gets error = null
from deletePoll and from a validly-formed updatePoll, and the store is
left completely unchanged, because the write is filtered by both the poll
id and the caller id. -/
theorem c1_nonowner_delete_update_noop
    (db : Db) (u : AuthUser) (p : String) (form : FormDataModel) (q : String)
    (hq : form.question = some q)
    (hv : (validatePollInput (sanitizeInput q) (processOptions form.options)).isValid = true)
    (hown : ∀ r ∈ db.polls, r.id = p → r.user_id ≠ u.id) :
    deletePoll db ⟨some u, none⟩ p = (db, ⟨none⟩) ∧
    updatePoll db ⟨some u, none⟩ p form = .ok (db, ⟨none⟩) := by
  constructor
  · show (⟨db.polls.filter (fun r => !(r.id == p && r.user_id == u.id)), db.votes⟩,
      (⟨none⟩ : ActionResult)) = (db, ⟨none⟩)
    have hf : db.polls.filter (fun r => !(r.id == p && r.user_id == u.id)) = db.polls := by
      apply filter_all_eq_self
      intro r hr
      by_cases hid : r.id = p
      · have hne := hown r hr hid
        simp [hid, hne]
      · simp [hid]
    rw [hf]
  · unfold updatePoll
    rw [hq]
    simp only [hv, if_true]
    show Except.ok (⟨db.polls.map _, db.votes⟩, (⟨none⟩ : ActionResult)) = .ok (db, ⟨none⟩)
    have hm : db.polls.map (fun r =>
        if r.id == p && r.user_id == u.id then
          { r with question := sanitizeInput q, options := processOptions form.options }
        else r) = db.polls := by
      apply map_fixes_eq_self
      intro r hr
      by_cases hid : r.id = p
      · have hne := hown r hr hid
        simp [hid, hne]
      · simp [hid]
    rw [hm]

/-- C1 witness: the attacker is authenticated and does not own pollA; both
calls report error = null and change nothing. -/
theorem c1_nonowner_delete_update_noop_witness :
    deletePoll cDb ⟨some ⟨"attacker"⟩, none⟩ pid1 = (cDb, ⟨none⟩) ∧
    updatePoll cDb ⟨some ⟨"attacker"⟩, none⟩ pid1 ⟨some "New question", ["a1", "b1"]⟩ =
      .ok (cDb, ⟨none⟩) :=
  c1_nonowner_delete_update_noop cDb ⟨"attacker"⟩ pid1
    ⟨some "New question", ["a1", "b1"]⟩ "New question" rfl (by decide) (by decide)

/-- C4 is contradicted by the code: with the question key absent from the
form, createPoll evaluates null.trim() and the TypeError escapes the
operation boundary instead of being returned in the error field. -/
theorem c4_createPoll_missing_question_throws :
    createPoll cDb ⟨some ⟨"owner1"⟩, none⟩ ⟨none, ["a", "b"]⟩ "f1" 7 =
      .error nullTrimError := rfl

/-- C8: a non-UUID-shaped id makes getPollById answer a format error with
a null poll and no store query, and the store is only ever queried for ids
that match the pattern. -/
theorem c8_getPollById_format (db : Db) (id : String) (h : isUuid id = false) :
    getPollById db id = ⟨none, some "Invalid poll ID format", false⟩ ∧
    (∀ j : String, (getPollById db j).queried = true → isUuid j = true) := by
  constructor
  · unfold getPollById
    rw [if_neg (by simp [h])]
  · intro j hj
    by_cases hu : isUuid j = true
    · exact hu
    · exfalso
      rw [Bool.not_eq_true] at hu
      unfold getPollById at hj
      rw [if_neg (by simp [hu])] at hj
      exact absurd hj (by decide)

/-- C8 witness: the id abc is rejected without a query. -/
theorem c8_getPollById_format_witness :
    getPollById cDb "abc" = ⟨none, some "Invalid poll ID format", false⟩ ∧
    ((getPollById cDb "abc").queried = true → isUuid "abc" = true) :=
  ⟨(c8_getPollById_format cDb "abc" (by decide)).1,
   (c8_getPollById_format cDb "abc" (by decide)).2 "abc"⟩

/-- C2 counterexample: the value 5/2 is not an integer, yet submitVote
does not reject it: on pollA (three options) the call succeeds and inserts
a vote carrying the fractional index, because the code checks only the
numeric bounds 0 and 9 and never integrality. -/
theorem c2_fractional_index_accepted :
    (mkRat 5 2).den ≠ 1 ∧
    submitVote cDb ⟨none, none⟩ pid1 (mkRat 5 2) =
      (⟨[pollA], [⟨pid1, none, mkRat 5 2⟩]⟩, ⟨none⟩) := by
  decide

/-- C2 amended: submitVote rejects any index outside the closed interval
from 0 to 9 before touching the store (integrality is not checked), and on
a poll with exactly three options index 5 draws the per-poll range error
with no insert while index 2 is accepted and inserts one vote record. -/
theorem c2_vote_index_range
    (db : Db) (auth : AuthResult) (pid : String) (poll : PollRow) (idx : ℚ)
    (hu : isUuid pid = true)
    (hp : db.polls.filter (fun r => r.id == pid) = [poll])
    (h3 : poll.options.length = 3) :
    (idx < 0 ∨ idx > 9 → submitVote db auth pid idx = (db, ⟨some "Invalid option index"⟩)) ∧
    submitVote db auth pid 5 = (db, ⟨some "Invalid option index for this poll"⟩) ∧
    (auth.user = none →
      submitVote db auth pid 2 = (⟨db.polls, db.votes ++ [⟨pid, none, 2⟩]⟩, ⟨none⟩)) := by
  refine ⟨?_, ?_, ?_⟩
  · intro hb
    unfold submitVote
    rw [if_pos hu, if_pos hb]
  · unfold submitVote
    rw [if_pos hu, if_neg (by norm_num : ¬((5 : ℚ) < 0 ∨ (5 : ℚ) > 9)), hp]
    simp only [singleRow]
    rw [if_pos (show (poll.options.length : ℚ) ≤ 5 by rw [h3]; norm_num)]
  · intro hn
    unfold submitVote
    rw [if_pos hu, if_neg (by norm_num : ¬((2 : ℚ) < 0 ∨ (2 : ℚ) > 9)), hp]
    simp only [singleRow]
    rw [if_neg (show ¬((poll.options.length : ℚ) ≤ 2) by rw [h3]; norm_num), hn]
    rfl

/-- C2 witness: concrete runs on pollA for an out-of-bounds index, the
out-of-range index 5, and the accepted index 2. -/
theorem c2_vote_index_range_witness :
    submitVote cDb ⟨none, none⟩ pid1 (-1) = (cDb, ⟨some "Invalid option index"⟩) ∧
    submitVote cDb ⟨none, none⟩ pid1 5 = (cDb, ⟨some "Invalid option index for this poll"⟩) ∧
    submitVote cDb ⟨none, none⟩ pid1 2 = (⟨cDb.polls, cDb.votes ++ [⟨pid1, none, 2⟩]⟩, ⟨none⟩) :=
  ⟨(c2_vote_index_range cDb ⟨none, none⟩ pid1 pollA (-1) (by decide) (by decide) rfl).1
      (Or.inl (by norm_num)),
   (c2_vote_index_range cDb ⟨none, none⟩ pid1 pollA 0 (by decide) (by decide) rfl).2.1,
   (c2_vote_index_range cDb ⟨none, none⟩ pid1 pollA 0 (by decide) (by decide) rfl).2.2 rfl⟩

/-- C3 counterexample: in db3 a vote by u1 on pollA already exists (twice,
as the unguarded race permits), yet submitVote returns no duplicate error
and inserts a third vote: the single-row duplicate lookup yields no data
when more than one row matches, so the check passes. -/
theorem c3_existing_votes_not_rejected :
    (∃ w ∈ db3.votes, w.poll_id = pid1 ∧ w.user_id = some "u1") ∧
    submitVote db3 ⟨some ⟨"u1"⟩, none⟩ pid1 1 =
      (⟨[pollA], [⟨pid1, some "u1", 0⟩, ⟨pid1, some "u1", 1⟩, ⟨pid1, some "u1", 1⟩]⟩,
       ⟨none⟩) := by
  decide

/-- C3 amended: when exactly one vote by the authenticated caller on the
poll exists, submitVote reports the duplicate error and inserts nothing
(with two or more matching rows the single-row lookup yields no data and
another vote is inserted); an anonymous caller is never checked, and each
call, repeated at will, appends a vote whose voter identifier is null. -/
theorem c3_duplicate_vote_check
    (db : Db) (u : AuthUser) (e : Option String) (pid : String)
    (poll : PollRow) (v : VoteRow) (idx : ℚ)
    (hu : isUuid pid = true)
    (hb : ¬(idx < 0 ∨ idx > 9))
    (hp : db.polls.filter (fun r => r.id == pid) = [poll])
    (hlen : ¬((poll.options.length : ℚ) ≤ idx))
    (hdup : db.votes.filter (fun w => w.poll_id == pid && w.user_id == some u.id) = [v]) :
    submitVote db ⟨some u, e⟩ pid idx = (db, ⟨some "You have already voted on this poll"⟩) ∧
    submitVote db ⟨none, e⟩ pid idx =
      (⟨db.polls, db.votes ++ [⟨pid, none, idx⟩]⟩, ⟨none⟩) ∧
    submitVote ⟨db.polls, db.votes ++ [⟨pid, none, idx⟩]⟩ ⟨none, e⟩ pid idx =
      (⟨db.polls, (db.votes ++ [⟨pid, none, idx⟩]) ++ [⟨pid, none, idx⟩]⟩, ⟨none⟩) := by
  refine ⟨?_, ?_, ?_⟩
  · unfold submitVote
    rw [if_pos hu, if_neg hb, hp]
    simp only [singleRow]
    rw [if_neg hlen]
    show (match singleRow (db.votes.filter
        (fun w => w.poll_id == pid && w.user_id == some u.id)) with
      | some _ => (db, (⟨some "You have already voted on this poll"⟩ : ActionResult))
      | none => _) = _
    rw [hdup]
    rfl
  · unfold submitVote
    rw [if_pos hu, if_neg hb, hp]
    simp only [singleRow]
    rw [if_neg hlen]
    rfl
  · unfold submitVote
    rw [if_pos hu, if_neg hb]
    show (match singleRow ((⟨db.polls, db.votes ++ [⟨pid, none, idx⟩]⟩ : Db).polls.filter
        (fun r => r.id == pid)) with
      | none => _
      | some poll => _) = _
    rw [show (⟨db.polls, db.votes ++ [⟨pid, none, idx⟩]⟩ : Db).polls = db.polls from rfl, hp]
    simp only [singleRow]
    rw [if_neg hlen]
    rfl

/-- C3 witness: with exactly one prior vote by u1, u1 is rejected as a
duplicate; two successive anonymous votes on the same poll both insert. -/
theorem c3_duplicate_vote_check_witness :
    submitVote db1 ⟨some ⟨"u1"⟩, none⟩ pid1 1 =
      (db1, ⟨some "You have already voted on this poll"⟩) ∧
    submitVote db1 ⟨none, none⟩ pid1 1 =
      (⟨db1.polls, db1.votes ++ [⟨pid1, none, 1⟩]⟩, ⟨none⟩) ∧
    submitVote ⟨db1.polls, db1.votes ++ [⟨pid1, none, 1⟩]⟩ ⟨none, none⟩ pid1 1 =
      (⟨db1.polls, (db1.votes ++ [⟨pid1, none, 1⟩]) ++ [⟨pid1, none, 1⟩]⟩, ⟨none⟩) :=
  c3_duplicate_vote_check db1 ⟨"u1"⟩ none pid1 pollA ⟨pid1, some "u1", 0⟩ 1
    (by decide) (by norm_num) (by decide) (by norm_num [pollA]) (by decide)

/-- C5 counterexample: with a valid question, the option list holding a
201-character first option and an empty second option is reported with the
length reason, not the content reason: the loop checks option by option,
so the length check of the first option fires before the content check of
the second. -/
theorem c5_interleaved_loop_order :
    validatePollInput "Valid question" [longOpt, ""] =
      ⟨false, some "Each option must be less than 200 characters."⟩ ∧
    "Each option must be less than 200 characters." ≠
      "All options must have content." := by
  constructor
  · decide
  · decide

/-- C5 amended: the validator applies the question and cardinality rules
in the stated order; it then scans the options left to right, and for the
first option failing a check reports the content reason when that option
is empty and the length reason when it is non-empty and over 200
characters: across different options the scan order, not the rule order,
decides which reason is reported. -/
theorem c5_validator_rule_order (q : String) (opts : List String) :
    (q.length < 3 →
      validatePollInput q opts = ⟨false, some "Question must be at least 3 characters long."⟩) ∧
    (3 ≤ q.length → 500 < q.length →
      validatePollInput q opts = ⟨false, some "Question must be less than 500 characters."⟩) ∧
    (3 ≤ q.length → q.length ≤ 500 → opts.length < 2 →
      validatePollInput q opts = ⟨false, some "At least 2 options are required."⟩) ∧
    (3 ≤ q.length → q.length ≤ 500 → 10 < opts.length →
      validatePollInput q opts = ⟨false, some "Maximum 10 options allowed."⟩) ∧
    (∀ pre o rest, 3 ≤ q.length → q.length ≤ 500 →
      opts = pre ++ o :: rest → 2 ≤ opts.length → opts.length ≤ 10 →
      (∀ p ∈ pre, p ≠ "" ∧ p.length ≤ 200) →
      ((o = "" →
          validatePollInput q opts = ⟨false, some "All options must have content."⟩) ∧
       (o ≠ "" → 200 < o.length →
          validatePollInput q opts =
            ⟨false, some "Each option must be less than 200 characters."⟩))) := by
  refine ⟨validate_q_short q opts, validate_q_long q opts,
    validate_count_low q opts, validate_count_high q opts, ?_⟩
  intro pre o rest h3 h5 hsplit h2 h10 hpre
  constructor
  · intro ho
    rw [validate_options_loop q opts h3 h5 h2 h10, hsplit,
      checkOptions_append pre (o :: rest) hpre, ho, checkOptions_cons_empty]
  · intro ho hol
    rw [validate_options_loop q opts h3 h5 h2 h10, hsplit,
      checkOptions_append pre (o :: rest) hpre, checkOptions_cons_long o rest ho hol]

/-- C5 witness: the key scenario instantiated, via the general order
theorem. -/
theorem c5_validator_rule_order_witness :
    validatePollInput "Valid question" [longOpt, ""] =
      ⟨false, some "Each option must be less than 200 characters."⟩ :=
  ((c5_validator_rule_order "Valid question" [longOpt, ""]).2.2.2.2 [] longOpt [""]
    (by decide) (by decide) rfl (by decide) (by decide) (by decide)).2
    (by decide) (by decide)

/-- C6 counterexample: trimming happens before bracket removal, so a
bracket can shield inner whitespace: the sanitized form of the four
character input starting with a bracket and a space begins with a space,
contradicting the no-surrounding-whitespace part of the claim. -/
theorem c6_leading_whitespace_survives :
    sanitizeInput "< a>" = " a" ∧
    (sanitizeInput "< a>").data.head? = some ' ' ∧
    jsWhitespaceChar ' ' = true := by
  refine ⟨by decide, by decide, by decide⟩

/-- C6 amended: the sanitizer output never contains a literal angle
bracket, and the concrete example sanitizes exactly as stated; the output
can, however, start or end with whitespace that a removed bracket shielded
from the initial trim. -/
theorem c6_sanitizer_strips_angles (s : String) :
    '<' ∉ (sanitizeInput s).data ∧ '>' ∉ (sanitizeInput s).data ∧
    sanitizeInput "<script>hi</script>" = "scripthi/script" := by
  refine ⟨?_, ?_, by decide⟩
  · intro hmem
    have hp := (List.mem_filter.mp hmem).2
    exact absurd hp (by decide)
  · intro hmem
    have hp := (List.mem_filter.mp hmem).2
    exact absurd hp (by decide)

/-- C7 counterexample: a raw question of 501 characters one of which is a
bracket passes validation (its sanitized form has 500 characters), so
createPoll reports no error and writes a row to the store, contrary to the
claim read on the submitted question text. -/
theorem c7_long_raw_question_accepted :
    qLong.length = 501 ∧
    createPoll cDb ⟨some ⟨"owner1"⟩, none⟩ ⟨some qLong, ["yes", "no"]⟩ "f1" 7 =
      .ok (⟨[pollA, ⟨"f1", "owner1", String.mk (List.replicate 500 'a'), ["yes", "no"], 7⟩],
            []⟩, ⟨none⟩) := by
  refine ⟨by decide, by decide⟩

/-- C7 amended: the bound is enforced on the sanitized question: when the
sanitized form is shorter than 3 or longer than 500 characters, createPoll
and updatePoll report the corresponding validation error and leave the
store untouched; and a raw question shorter than 3 characters always has a
sanitized form shorter than 3, so it is always rejected. -/
theorem c7_question_bounds_reject
    (db : Db) (auth : AuthResult) (form : FormDataModel)
    (q pid fid : String) (now : Nat)
    (hq : form.question = some q)
    (hbad : (sanitizeInput q).length < 3 ∨ 500 < (sanitizeInput q).length) :
    (q.length < 3 → (sanitizeInput q).length < 3) ∧
    createPoll db auth form fid now =
      .ok (db, ⟨some (if (sanitizeInput q).length < 3 then
          "Question must be at least 3 characters long."
        else "Question must be less than 500 characters.")⟩) ∧
    updatePoll db auth pid form =
      .ok (db, ⟨some (if (sanitizeInput q).length < 3 then
          "Question must be at least 3 characters long."
        else "Question must be less than 500 characters.")⟩) := by
  have hmono : q.length < 3 → (sanitizeInput q).length < 3 := fun h =>
    lt_of_le_of_lt (sanitizeInput_length_le q) h
  have hval : validatePollInput (sanitizeInput q) (processOptions form.options) =
      ⟨false, some (if (sanitizeInput q).length < 3 then
          "Question must be at least 3 characters long."
        else "Question must be less than 500 characters.")⟩ := by
    rcases hbad with h | h
    · rw [if_pos h]
      exact validate_q_short _ _ h
    · rw [if_neg (by omega)]
      exact validate_q_long _ _ (by omega) h
  refine ⟨hmono, ?_, ?_⟩
  · unfold createPoll
    rw [hq]
    simp only [hval]
    rw [if_neg Bool.false_ne_true]
  · unfold updatePoll
    rw [hq]
    simp only [hval]
    rw [if_neg Bool.false_ne_true]

/-- C7 witness: a two-character question is rejected by both operations
with the too-short reason and no store change. -/
theorem c7_question_bounds_reject_witness :
    createPoll cDb ⟨some ⟨"owner1"⟩, none⟩ ⟨some "ab", ["yes", "no"]⟩ "f1" 7 =
      .ok (cDb, ⟨some "Question must be at least 3 characters long."⟩) ∧
    updatePoll cDb ⟨some ⟨"owner1"⟩, none⟩ pid1 ⟨some "ab", ["yes", "no"]⟩ =
      .ok (cDb, ⟨some "Question must be at least 3 characters long."⟩) := by
  have h := c7_question_bounds_reject cDb ⟨some ⟨"owner1"⟩, none⟩
    ⟨some "ab", ["yes", "no"]⟩ "ab" pid1 "f1" 7 rfl (Or.inl (by decide))
  rw [if_pos (show (sanitizeInput "ab").length < 3 by decide)] at h
  exact ⟨h.2.1, h.2.2⟩

/-- C9: the shared form pipeline drops raw empty option entries before
sanitization and validation, so a submission with one non-empty and one
empty raw option is rejected for having too few options (with a valid
question), and an empty option can reach the content rule only by
becoming empty during sanitization. -/
theorem c9_empty_raw_options_dropped
    (db : Db) (auth : AuthResult) (q a pid fid : String) (now : Nat)
    (ha : a ≠ "")
    (h3 : 3 ≤ (sanitizeInput q).length) (h5 : (sanitizeInput q).length ≤ 500) :
    createPoll db auth ⟨some q, [a, ""]⟩ fid now =
      .ok (db, ⟨some "At least 2 options are required."⟩) ∧
    createPoll db auth ⟨some q, ["", a]⟩ fid now =
      .ok (db, ⟨some "At least 2 options are required."⟩) ∧
    updatePoll db auth pid ⟨some q, [a, ""]⟩ =
      .ok (db, ⟨some "At least 2 options are required."⟩) ∧
    (∀ raw : List String, "" ∈ processOptions raw →
      ∃ o ∈ raw, o ≠ "" ∧ sanitizeInput o = "") := by
  have hba : (a == "") = false := beq_eq_false_iff_ne.mpr ha
  have hpo1 : processOptions [a, ""] = [sanitizeInput a] := by
    unfold processOptions
    rw [show List.filter (fun o => !(o == "")) [a, ""] = [a] by
      simp [List.filter, hba]]
    rfl
  have hpo2 : processOptions ["", a] = [sanitizeInput a] := by
    unfold processOptions
    rw [show List.filter (fun o => !(o == "")) ["", a] = [a] by
      simp [List.filter, hba]]
    rfl
  have hval1 : validatePollInput (sanitizeInput q) [sanitizeInput a] =
      ⟨false, some "At least 2 options are required."⟩ :=
    validate_count_low _ _ h3 h5 (by simp)
  refine ⟨?_, ?_, ?_, ?_⟩
  · unfold createPoll
    show (if (validatePollInput (sanitizeInput q) (processOptions [a, ""])).isValid then _
      else _) = _
    rw [hpo1]
    simp only [hval1]
    rw [if_neg Bool.false_ne_true]
  · unfold createPoll
    show (if (validatePollInput (sanitizeInput q) (processOptions ["", a])).isValid then _
      else _) = _
    rw [hpo2]
    simp only [hval1]
    rw [if_neg Bool.false_ne_true]
  · unfold updatePoll
    show (if (validatePollInput (sanitizeInput q) (processOptions [a, ""])).isValid then _
      else _) = _
    rw [hpo1]
    simp only [hval1]
    rw [if_neg Bool.false_ne_true]
  · intro raw hmem
    unfold processOptions at hmem
    obtain ⟨o, ho, hso⟩ := List.mem_map.mp hmem
    have hf := List.mem_filter.mp ho
    refine ⟨o, hf.1, ?_, hso⟩
    intro hoe
    have := hf.2
    rw [hoe] at this
    exact absurd this (by decide)

/-- C9 witness: a concrete submission with one empty raw option draws the
too-few-options reason, and a non-empty raw option made only of brackets
is what an empty validated option looks like. -/
theorem c9_empty_raw_options_dropped_witness :
    createPoll cDb ⟨some ⟨"owner1"⟩, none⟩ ⟨some "Valid question", ["x", ""]⟩ "f1" 7 =
      .ok (cDb, ⟨some "At least 2 options are required."⟩) ∧
    (∃ o ∈ ["ok", "<>"], o ≠ "" ∧ sanitizeInput o = "") := by
  have h := c9_empty_raw_options_dropped cDb ⟨some ⟨"owner1"⟩, none⟩
    "Valid question" "x" pid1 "f1" 7 (by decide) (by decide) (by decide)
  exact ⟨h.1, h.2.2.2 ["ok", "<>"] (by decide)⟩

/-- C10: submitVote never reports an authentication failure: its error is
always drawn from the fixed non-auth set, the auth error channel is never
read (results agree for any error value alongside the same user), and a
caller with no user, whatever the auth error, proceeds on the anonymous
path inserting a vote with a null voter identifier. -/
theorem c10_vote_ignores_auth_error
    (db : Db) (auth : AuthResult) (pid : String) (poll : PollRow) (idx : ℚ) :
    (submitVote db auth pid idx).2.error ∈
      ([none, some "Invalid poll ID format", some "Invalid option index",
        some "Poll not found", some "Invalid option index for this poll",
        some "You have already voted on this poll"] : List (Option String)) ∧
    (∀ e : Option String, submitVote db ⟨auth.user, e⟩ pid idx = submitVote db auth pid idx) ∧
    (auth.user = none → isUuid pid = true → ¬(idx < 0 ∨ idx > 9) →
      db.polls.filter (fun r => r.id == pid) = [poll] →
      ¬((poll.options.length : ℚ) ≤ idx) →
      submitVote db auth pid idx = (⟨db.polls, db.votes ++ [⟨pid, none, idx⟩]⟩, ⟨none⟩)) := by
  refine ⟨?_, fun e => rfl, ?_⟩
  · unfold submitVote
    repeat' split
    all_goals try simp
    rename_i u heq
    rcases hsv : singleRow (db.votes.filter
        (fun v => v.poll_id == pid && v.user_id == some u.id)) with _ | w
    · rw [hsv]
      simp
    · rw [hsv]
      simp
  · intro hn hu hb hp hlen
    unfold submitVote
    rw [if_pos hu, if_neg hb, hp]
    simp only [singleRow]
    rw [if_neg hlen, hn]
    rfl

/-- C10 witness: an auth lookup that failed with an error message behaves
exactly as the anonymous path and inserts a null-voter vote. -/
theorem c10_vote_ignores_auth_error_witness :
    (submitVote cDb ⟨none, some "boom"⟩ pid1 1).2.error ∈
      ([none, some "Invalid poll ID format", some "Invalid option index",
        some "Poll not found", some "Invalid option index for this poll",
        some "You have already voted on this poll"] : List (Option String)) ∧
    submitVote cDb ⟨none, some "boom"⟩ pid1 1 = submitVote cDb ⟨none, none⟩ pid1 1 ∧
    submitVote cDb ⟨none, some "boom"⟩ pid1 1 =
      (⟨cDb.polls, cDb.votes ++ [⟨pid1, none, 1⟩]⟩, ⟨none⟩) := by
  have h := c10_vote_ignores_auth_error cDb ⟨none, some "boom"⟩ pid1 pollA 1
  have h2 := c10_vote_ignores_auth_error cDb ⟨none, none⟩ pid1 pollA 1
  refine ⟨h.1, ?_, ?_⟩
  · exact (h2.2.1 (some "boom")).symm ▸ rfl
  · exact h.2.2 rfl (by decide) (by norm_num) (by decide) (by norm_num [pollA])
